import Mathlib

set_option linter.unusedVariables false

/-! Shallow embedding of `src/service.rs` from the p2p crate: the `Service`
event reactor, its registries, and its dispatch routines. State is modelled
explicitly; handler callbacks, channel sends and spawns are recorded as an
output trace. Rust `HashMap`s are modelled as insertion-ordered association
lists (a determinization of the unspecified iteration order). -/

abbrev SessionId := Nat

abbrev ProtocolId := Nat

abbrev PublicKey := Nat

/-- Multiaddr, with a flag recording whether `multiaddr_to_socketaddr` succeeds on it. -/
structure Multiaddr where
  val : Nat
  resolvable : Bool
deriving DecidableEq, Repr

/-- yamux SessionType: Client = Outbound dialer side, Server = Inbound listener side. -/
inductive SessionType where
  | Client
  | Server
deriving DecidableEq, Repr

/-- io::ErrorKind values the service distinguishes when classifying failures. -/
inductive IoKind where
  | Other
  | TimedOut
  | Raw (n : Nat)
deriving DecidableEq, Repr

/-- crate `error::Error` as used by `service.rs` (RepeatedConnection, io errors). -/
inductive SvcErr where
  | RepeatedConnection (id : SessionId)
  | Io (kind : IoKind)
deriving DecidableEq, Repr

/-- `context::SessionContext` (fields read by `service.rs`; the event sender is
modelled by trace outputs). -/
structure SessionContext where
  id : SessionId
  address : Multiaddr
  ty : SessionType
  remote_pubkey : Option PublicKey
deriving DecidableEq, Repr

/-- A `ProtocolMeta` trait object: id, name, and whether each handler factory
returns a handler (`service_handle()` / `session_handle()` being `Some`). -/
structure ProtocolMeta where
  name : String
  id : ProtocolId
  service_handle : Bool
  session_handle : Bool
deriving DecidableEq, Repr

/-- `session::SessionEvent` with the variant shapes used in `service.rs`
(the raw stream handle of HandshakeSuccess is not representable and dropped). -/
inductive SessionEvent where
  | SessionClose (id : SessionId)
  | HandshakeSuccess (public_key : PublicKey) (address : Multiaddr) (ty : SessionType)
  | HandshakeFail (ty : SessionType) (error : SvcErr) (address : Multiaddr)
  | ProtocolMessage (id : SessionId) (proto_id : ProtocolId) (data : List Nat)
  | ProtocolOpen (id : SessionId) (proto_id : ProtocolId) (version : String)
  | ProtocolClose (id : SessionId) (proto_id : ProtocolId)
deriving DecidableEq, Repr

/-- `ServiceEvent` delivered to the user ServiceHandle. -/
inductive ServiceEvent where
  | SessionClose (id : SessionId)
  | SessionOpen (id : SessionId) (address : Multiaddr) (ty : SessionType)
      (public_key : Option PublicKey)
deriving DecidableEq, Repr

/-- `ServiceError` delivered to the user ServiceHandle. -/
inductive ServiceError where
  | DialerError (address : Multiaddr) (error : SvcErr)
  | ListenError (address : Multiaddr) (error : SvcErr)
deriving DecidableEq, Repr

/-- `ServiceTask` submitted from outside (the boxed future of FutureTask is dropped). -/
inductive ServiceTask where
  | ProtocolMessage (session_ids : Option (List SessionId)) (proto_id : ProtocolId)
      (data : List Nat)
  | ProtocolNotify (proto_id : ProtocolId) (token : Nat)
  | ProtocolSessionNotify (session_id : SessionId) (proto_id : ProtocolId) (token : Nat)
  | FutureTask
  | Disconnect (session_id : SessionId)
  | Dial (address : Multiaddr)
deriving DecidableEq, Repr

/-- Observable effects of the reactor, recorded in execution order: user
ServiceHandle callbacks, protocol-handler callbacks at both tiers, try_send
into per-session channels, stream shutdowns and task spawns. -/
inductive Out where
  | handle_event (e : ServiceEvent)
  | handle_error (e : ServiceError)
  | shutdown_stream
  | try_send_session (id : SessionId) (ev : SessionEvent)
  | open_proto_stream (name : String)
  | spawn_session (id : SessionId)
  | spawn_handshake (address : Multiaddr) (ty : SessionType)
  | spawn_future
  | service_init (p : ProtocolId)
  | service_connected (p : ProtocolId) (sid : SessionId) (version : String)
  | service_received (p : ProtocolId) (sid : SessionId) (data : List Nat)
  | service_disconnected (p : ProtocolId) (sid : SessionId)
  | service_notify (p : ProtocolId) (token : Nat)
  | sess_connected (sid : SessionId) (p : ProtocolId) (version : String)
  | sess_received (sid : SessionId) (p : ProtocolId) (data : List Nat)
  | sess_disconnected (sid : SessionId) (p : ProtocolId)
  | sess_notify (sid : SessionId) (p : ProtocolId) (token : Nat)
deriving DecidableEq, Repr

/-- HashMap lookup on an association list. -/
def mapLookup {α : Type} (m : List (Nat × α)) (k : Nat) : Option α :=
  match m with
  | [] => none
  | (k1, v) :: rest => if k1 = k then some v else mapLookup rest k

/-- HashMap insert: replace in place, or append a fresh binding. -/
def mapInsert {α : Type} (m : List (Nat × α)) (k : Nat) (v : α) : List (Nat × α) :=
  match m with
  | [] => [(k, v)]
  | (k1, v1) :: rest => if k1 = k then (k, v) :: rest else (k1, v1) :: mapInsert rest k v

/-- HashMap remove. -/
def mapRemove {α : Type} (m : List (Nat × α)) (k : Nat) : List (Nat × α) :=
  match m with
  | [] => []
  | (k1, v) :: rest => if k1 = k then mapRemove rest k else (k1, v) :: mapRemove rest k

/-- HashSet membership on a list of Nat. -/
def setMem (l : List Nat) (x : Nat) : Bool :=
  match l with
  | [] => false
  | y :: rest => if y = x then true else setMem rest x

/-- HashSet insert: add at the end if absent. -/
def setInsert (l : List Nat) (x : Nat) : List Nat :=
  if setMem l x then l else l ++ [x]

/-- `map.entry(k).or_default().insert(x)` for a map of Nat-sets. -/
def entrySetInsert (m : List (Nat × List Nat)) (k x : Nat) : List (Nat × List Nat) :=
  match m with
  | [] => [(k, [x])]
  | (k1, v) :: rest =>
    if k1 = k then (k1, setInsert v x) :: rest else (k1, v) :: entrySetInsert rest k x

/-- HashSet remove on a list of Nat. -/
def setRemove (l : List Nat) (x : Nat) : List Nat :=
  match l with
  | [] => []
  | y :: rest => if y = x then setRemove rest x else y :: setRemove rest x

/-- Remove `x` from the inner set at key `k` (the outer entry itself stays). -/
def entrySetRemove (m : List (Nat × List Nat)) (k x : Nat) : List (Nat × List Nat) :=
  match m with
  | [] => []
  | (k1, v) :: rest =>
    if k1 = k then (k1, setRemove v x) :: rest
    else (k1, v) :: entrySetRemove rest k x

/-- Modelled from the spec: the `ServiceContext` notify-sender table
(`context.rs` is not under `src/`): drop all notify senders registered for
the pair (session_id, proto_id). -/
def removeNotify (l : List (Nat × Nat)) (sid pid : Nat) : List (Nat × Nat) :=
  match l with
  | [] => []
  | q :: rest =>
    if q.1 = sid ∧ q.2 = pid then removeNotify rest sid pid
    else q :: removeNotify rest sid pid

/-- Membership test for a pending dial address (`self.dial.iter().any(...)`). -/
def dialContains (l : List Multiaddr) (a : Multiaddr) : Bool :=
  match l with
  | [] => false
  | x :: rest => if x = a then true else dialContains rest a

/-- `sessions.values().find(|context| context.remote_pubkey.as_ref() == Some(key))`. -/
def findPk (m : List (Nat × SessionContext)) (key : PublicKey) : Option SessionContext :=
  match m with
  | [] => none
  | (_, c) :: rest => if c.remote_pubkey = some key then some c else findPk rest key

/-- Modelled from the spec: `utils::multiaddr_to_socketaddr` (file `utils.rs`
is not under `src/`); the spec states the system "validates that an address
resolves to a TCP socket address and rejects otherwise", so an address carries
whether it resolves. -/
def multiaddr_to_socketaddr (a : Multiaddr) : Option Nat :=
  if a.resolvable then some a.val else none

/-- The `Service` reactor state (`service.rs` lines 162-199). Handler maps
keep only the key sets (the handler objects themselves are opaque trait
objects whose callbacks are traced as outputs); `listens` and `dial` keep the
addresses, the attached IO objects being driven by an environment oracle. The
notify-sender table and the listen-address snapshot live in `ServiceContext`
in the source. -/
structure Service where
  protocol_configs : List ProtocolMeta
  sessions : List (Nat × SessionContext)
  listens : List Multiaddr
  dial : List Multiaddr
  task_count : Nat
  next_session : Nat
  has_key_pair : Bool
  session_service_protos : List (Nat × List Nat)
  service_proto_handles : List Nat
  session_proto_handles : List (Nat × List Nat)
  notify_senders : List (Nat × Nat)
  listens_snapshot : List Multiaddr
deriving DecidableEq, Repr

/-- `Service::proto_handle` collapsed to handler existence: among the configs
with the given id, does the requested-tier factory return a handler? -/
def proto_handle_exists (cfgs : List ProtocolMeta) (session : Bool) (proto_id : ProtocolId) :
    Bool :=
  match cfgs with
  | [] => false
  | m :: rest =>
    if m.id = proto_id then
      (if session then m.session_handle else m.service_handle) ||
        proto_handle_exists rest session proto_id
    else proto_handle_exists rest session proto_id

/-- Tail of `Service::session_open` past the dedup check: allocate the next id,
insert the context, open client proto streams, spawn the session, emit SessionOpen. -/
def Service.session_open_new (s : Service) (remote_pubkey : Option PublicKey)
    (address : Multiaddr) (ty : SessionType) : Service × List Out :=
  let ns := s.next_session + 1
  let ctx : SessionContext :=
    { id := ns, address := address, ty := ty, remote_pubkey := remote_pubkey }
  let s1 := { s with next_session := ns, sessions := mapInsert s.sessions ns ctx }
  let opens : List Out :=
    if ty = SessionType.Client then
      s1.protocol_configs.map (fun m => Out.open_proto_stream m.name)
    else []
  (s1, opens ++ [Out.spawn_session ns,
    Out.handle_event (ServiceEvent.SessionOpen ns address ty remote_pubkey)])

/-- `Service::session_open` (lines 431-515): reject a duplicate remote public
key with RepeatedConnection before allocating an id, otherwise allocate. -/
def Service.session_open (s : Service) (remote_pubkey : Option PublicKey)
    (address : Multiaddr) (ty : SessionType) : Service × List Out :=
  match remote_pubkey with
  | some key =>
    match findPk s.sessions key with
    | some ctx =>
      (s, [Out.shutdown_stream,
        Out.handle_error
          (if ty = SessionType.Client then
            ServiceError.DialerError address (SvcErr.RepeatedConnection ctx.id)
          else
            ServiceError.ListenError address (SvcErr.RepeatedConnection ctx.id))])
    | none => s.session_open_new (some key) address ty
  | none => s.session_open_new none address ty

/-- Per-proto tail of `Service::session_close`: drop notify senders, then call
the service-level handler's disconnected if both handler and context still exist. -/
def closeServiceProtos (s : Service) (id : SessionId) (pids : List Nat) :
    Service × List Out :=
  match pids with
  | [] => (s, [])
  | pid :: rest =>
    let s1 := { s with notify_senders := removeNotify s.notify_senders id pid }
    let here : List Out :=
      if setMem s1.service_proto_handles pid && (mapLookup s1.sessions id).isSome then
        [Out.service_disconnected pid id]
      else []
    let (s2, os) := closeServiceProtos s1 id rest
    (s2, here ++ os)

/-- Tail of `Service::session_close` past the SessionClose delivery: session
handler disconnected callbacks, per-proto service cleanup, final context removal. -/
def Service.session_close_rest (s : Service) (id : SessionId) : Service × List Out :=
  let step1 : Service × List Out :=
    match mapLookup s.session_proto_handles id with
    | some handles =>
      ({ s with session_proto_handles := mapRemove s.session_proto_handles id },
       handles.map (fun pid => Out.sess_disconnected id pid))
    | none => (s, [])
  let s1 := step1.1
  let close_proto_ids := (mapLookup s1.session_service_protos id).getD []
  let s2 := { s1 with session_service_protos := mapRemove s1.session_service_protos id }
  let step2 := closeServiceProtos s2 id close_proto_ids
  ({ step2.1 with sessions := mapRemove step2.1.sessions id }, step1.2 ++ step2.2)

/-- `Service::session_close` (lines 519-554): best-effort shutdown signal to
the session task, SessionClose to the ServiceHandle, then the handler cleanup. -/
def Service.session_close (s : Service) (id : SessionId) : Service × List Out :=
  let sendOuts : List Out :=
    if (mapLookup s.sessions id).isSome then
      [Out.try_send_session id (SessionEvent.SessionClose id)]
    else []
  let rest := s.session_close_rest id
  (rest.1, sendOuts ++ [Out.handle_event (ServiceEvent.SessionClose id)] ++ rest.2)

/-- Body of `Service::protocol_open` once the session-context lookup has
succeeded: lazy service-handler creation and init, service connected and
binding record, session-handler creation and connected. -/
def Service.protocol_open_inner (s : Service) (id : SessionId) (proto_id : ProtocolId)
    (version : String) : Service × List Out :=
  let step1 : Service × List Out :=
    if setMem s.service_proto_handles proto_id then (s, [])
    else if proto_handle_exists s.protocol_configs false proto_id then
      ({ s with service_proto_handles := s.service_proto_handles ++ [proto_id] },
       [Out.service_init proto_id])
    else (s, [])
  let s1 := step1.1
  let step2 : Service × List Out :=
    if setMem s1.service_proto_handles proto_id then
      ({ s1 with session_service_protos := entrySetInsert s1.session_service_protos id proto_id },
       [Out.service_connected proto_id id version])
    else (s1, [])
  let s2 := step2.1
  let step3 : Service × List Out :=
    if proto_handle_exists s.protocol_configs true proto_id then
      ({ s2 with session_proto_handles := entrySetInsert s2.session_proto_handles id proto_id },
       [Out.sess_connected id proto_id version])
    else (s2, [])
  (step3.1, step1.2 ++ step2.2 ++ step3.2)

/-- `Service::protocol_open` (lines 558-592); `none` models the
`.expect("Protocol open without session open")` panic. -/
def Service.protocol_open (s : Service) (id : SessionId) (proto_id : ProtocolId)
    (version : String) : Option (Service × List Out) :=
  match mapLookup s.sessions id with
  | none => none
  | some _ctx => some (s.protocol_open_inner id proto_id version)

/-- `Service::protocol_message` (lines 596-620). -/
def Service.protocol_message (s : Service) (session_id : SessionId)
    (proto_id : ProtocolId) (data : List Nat) : Service × List Out :=
  let o1 : List Out :=
    if setMem s.service_proto_handles proto_id && (mapLookup s.sessions session_id).isSome then
      [Out.service_received proto_id session_id data]
    else []
  let o2 : List Out :=
    match mapLookup s.session_proto_handles session_id with
    | some handles =>
      if setMem handles proto_id then [Out.sess_received session_id proto_id data] else []
    | none => []
  (s, o1 ++ o2)

/-- `Service::protocol_close` (lines 624-652). -/
def Service.protocol_close (s : Service) (session_id : SessionId)
    (proto_id : ProtocolId) : Service × List Out :=
  let o1 : List Out :=
    if setMem s.service_proto_handles proto_id && (mapLookup s.sessions session_id).isSome then
      [Out.service_disconnected proto_id session_id]
    else []
  let step1 : Service × List Out :=
    match mapLookup s.session_proto_handles session_id with
    | some handles =>
      if setMem handles proto_id then
        ({ s with session_proto_handles := entrySetRemove s.session_proto_handles session_id proto_id },
         [Out.sess_disconnected session_id proto_id])
      else (s, [])
    | none => (s, [])
  let s1 := step1.1
  let s2 : Service :=
    match mapLookup s1.session_service_protos session_id with
    | some _ =>
      { s1 with session_service_protos := entrySetRemove s1.session_service_protos session_id proto_id }
    | none => s1
  let s3 := { s2 with notify_senders := removeNotify s2.notify_senders session_id proto_id }
  (s3, o1 ++ step1.2)

/-- `Service::handshake` (lines 380-427): with a key pair a handshake task is
spawned (its outcome arrives later as a session event); without, go straight to
session_open and, for a client, decrement task_count. -/
def Service.handshake (s : Service) (peer_address : Multiaddr) (ty : SessionType) :
    Service × List Out :=
  if s.has_key_pair then
    (s, [Out.spawn_handshake peer_address ty])
  else
    let step := s.session_open none peer_address ty
    if ty = SessionType.Client then
      ({ step.1 with task_count := step.1.task_count - 1 }, step.2)
    else step

/-- `Service::dial_inner` (lines 263-269); `none` models the
`.expect("Address input error")` panic on an unresolvable address. -/
def Service.dial_inner (s : Service) (address : Multiaddr) : Option Service :=
  match multiaddr_to_socketaddr address with
  | none => none
  | some _ => some { s with dial := s.dial ++ [address], task_count := s.task_count + 1 }

/-- Outcome of polling one pending connect future, supplied by the environment. -/
inductive DialErr where
  | timer
  | elapsed
  | transport (e : Nat)
deriving DecidableEq, Repr

/-- Result of one `dialer.poll()` call, supplied by the environment; `ready`
carries the connected socket's peer address. -/
inductive DialResult where
  | ready (peer : Multiaddr)
  | notReady
  | failed (err : DialErr)
deriving DecidableEq, Repr

/-- Loop body of `Service::client_poll` (lines 735-767) over the drained dial
list, threading the state. -/
def clientLoop (denv : Multiaddr → DialResult) (pending : List Multiaddr) (s : Service) :
    Service × List Out :=
  match pending with
  | [] => (s, [])
  | address :: rest =>
    match denv address with
    | DialResult.ready peer =>
      let step := Service.handshake s peer SessionType.Client
      let tail := clientLoop denv rest step.1
      (tail.1, step.2 ++ tail.2)
    | DialResult.notReady =>
      clientLoop denv rest { s with dial := s.dial ++ [address] }
    | DialResult.failed derr =>
      let error : SvcErr :=
        match derr with
        | DialErr.timer => SvcErr.Io IoKind.Other
        | DialErr.elapsed => SvcErr.Io IoKind.TimedOut
        | DialErr.transport e => SvcErr.Io (IoKind.Raw e)
      let tail := clientLoop denv rest { s with task_count := s.task_count - 1 }
      (tail.1, Out.handle_error (ServiceError.DialerError address error) :: tail.2)

/-- `Service::client_poll`: `split_off(0)` takes the whole dial list, then every
pending connect is advanced once. -/
def Service.client_poll (s : Service) (denv : Multiaddr → DialResult) : Service × List Out :=
  clientLoop denv s.dial { s with dial := [] }

/-- Result of one `listen.poll()` call, supplied by the environment; `readySome`
carries the accepted socket's peer address. -/
inductive ListenResult where
  | readySome (peer : Multiaddr)
  | readyNone
  | notReady
  | failed (e : Nat)
deriving DecidableEq, Repr

/-- Loop body of `Service::listen_poll` (lines 771-794) over the drained listen
list; the Bool records whether any acceptor errored (snapshot update flag). -/
def listenLoop (lenv : Multiaddr → ListenResult) (pending : List Multiaddr) (s : Service) :
    Service × List Out × Bool :=
  match pending with
  | [] => (s, [], false)
  | address :: rest =>
    match lenv address with
    | ListenResult.readySome peer =>
      let step := Service.handshake s peer SessionType.Server
      let s2 := { step.1 with listens := step.1.listens ++ [address] }
      let tail := listenLoop lenv rest s2
      (tail.1, step.2 ++ tail.2.1, tail.2.2)
    | ListenResult.readyNone => listenLoop lenv rest s
    | ListenResult.notReady =>
      listenLoop lenv rest { s with listens := s.listens ++ [address] }
    | ListenResult.failed e =>
      let tail := listenLoop lenv rest s
      (tail.1,
       Out.handle_error (ServiceError.ListenError address (SvcErr.Io (IoKind.Raw e))) :: tail.2.1,
       true)

/-- `Service::listen_poll` (lines 771-804) including the listen-address
snapshot refresh in the ServiceContext. -/
def Service.listen_poll (s : Service) (lenv : Multiaddr → ListenResult) : Service × List Out :=
  let step := listenLoop lenv s.listens { s with listens := [] }
  let s1 := step.1
  if step.2.2 || s1.listens_snapshot.isEmpty then
    ({ s1 with listens_snapshot := s1.listens }, step.2.1)
  else (s1, step.2.1)

/-- `Service::handle_session_event` (lines 655-689); `none` propagates the
protocol_open panic. -/
def Service.handle_session_event (s : Service) (event : SessionEvent) :
    Option (Service × List Out) :=
  match event with
  | SessionEvent.SessionClose id => some (s.session_close id)
  | SessionEvent.HandshakeSuccess pk address ty =>
    let step := s.session_open (some pk) address ty
    if ty = SessionType.Client then
      some ({ step.1 with task_count := step.1.task_count - 1 }, step.2)
    else some step
  | SessionEvent.HandshakeFail ty error address =>
    if ty = SessionType.Client then
      some ({ s with task_count := s.task_count - 1 },
        [Out.handle_error (ServiceError.DialerError address error)])
    else some (s, [])
  | SessionEvent.ProtocolMessage id proto_id data => some (s.protocol_message id proto_id data)
  | SessionEvent.ProtocolOpen id proto_id version => s.protocol_open id proto_id version
  | SessionEvent.ProtocolClose id proto_id => some (s.protocol_close id proto_id)

/-- Drain of the session-event inbox: process the events in arrival order. -/
def Service.handle_session_events (s : Service) (evs : List SessionEvent) :
    Option (Service × List Out) :=
  match evs with
  | [] => some (s, [])
  | e :: rest =>
    match s.handle_session_event e with
    | none => none
    | some step =>
      match step.1.handle_session_events rest with
      | none => none
      | some tail => some (tail.1, step.2 ++ tail.2)

/-- `Service::broadcast` (lines 332-348): best-effort try_send to every session. -/
def Service.broadcast (s : Service) (proto_id : ProtocolId) (data : List Nat) :
    Service × List Out :=
  (s, s.sessions.map (fun q =>
    Out.try_send_session q.1 (SessionEvent.ProtocolMessage q.1 proto_id data)))

/-- `Service::filter_broadcast` (lines 303-326). -/
def Service.filter_broadcast (s : Service) (ids : Option (List SessionId))
    (proto_id : ProtocolId) (data : List Nat) : Service × List Out :=
  match ids with
  | none => s.broadcast proto_id data
  | some ids =>
    (s, (s.sessions.filter (fun q => ids.contains q.1)).map (fun q =>
      Out.try_send_session q.1 (SessionEvent.ProtocolMessage q.1 proto_id data)))

/-- `Service::handle_service_task` (lines 692-731); `none` propagates the
dial_inner panic on an unresolvable address. -/
def Service.handle_service_task (s : Service) (denv : Multiaddr → DialResult)
    (event : ServiceTask) : Option (Service × List Out) :=
  match event with
  | ServiceTask.ProtocolMessage session_ids proto_id data =>
    some (s.filter_broadcast session_ids proto_id data)
  | ServiceTask.Dial address =>
    let step1 : Option Service :=
      if dialContains s.dial address then some s else s.dial_inner address
    match step1 with
    | none => none
    | some s1 =>
      if s1.dial.isEmpty then some (s1, []) else some (s1.client_poll denv)
  | ServiceTask.Disconnect session_id => some (s.session_close session_id)
  | ServiceTask.FutureTask => some (s, [Out.spawn_future])
  | ServiceTask.ProtocolNotify proto_id token =>
    if setMem s.service_proto_handles proto_id then
      some (s, [Out.service_notify proto_id token])
    else some (s, [])
  | ServiceTask.ProtocolSessionNotify session_id proto_id token =>
    match mapLookup s.session_proto_handles session_id with
    | some handles =>
      if setMem handles proto_id then
        some (s, [Out.sess_notify session_id proto_id token])
      else
        some ({ s with notify_senders := removeNotify s.notify_senders session_id proto_id }, [])
    | none => some (s, [])

/-- Drain of the external-task inbox: process the tasks in arrival order. -/
def Service.handle_service_tasks (s : Service) (denv : Multiaddr → DialResult)
    (ts : List ServiceTask) : Option (Service × List Out) :=
  match ts with
  | [] => some (s, [])
  | t :: rest =>
    match s.handle_service_task denv t with
    | none => none
    | some step =>
      match step.1.handle_service_tasks denv rest with
      | none => none
      | some tail => some (tail.1, step.2 ++ tail.2)

/-- The termination predicate of the reactor (lines 818 and 851). -/
def Service.terminated (s : Service) : Bool :=
  s.listens.isEmpty && s.task_count == 0 && s.sessions.isEmpty

/-- Outcome of one `<Service as Stream>::poll` call: `Ok(Async::Ready(None))`,
`Ok(Async::NotReady)`, or `Err(())` (which no branch of the source produces). -/
inductive PollResult where
  | readyNone
  | notReady
  | error
deriving DecidableEq, Repr

/-- Work done by one `<Service as Stream>::poll` call past the early
termination check: one client_poll pass, one listen_poll pass, full drain of
the session-event inbox then of the task inbox. `none` propagates a panic
from event processing. -/
def Service.poll_body (s : Service) (denv : Multiaddr → DialResult)
    (lenv : Multiaddr → ListenResult) (sevs : List SessionEvent)
    (tasks : List ServiceTask) : Option (Service × List Out) :=
  let c := s.client_poll denv
  let l := c.1.listen_poll lenv
  match l.1.handle_session_events sevs with
  | none => none
  | some se =>
    match se.1.handle_service_tasks denv tasks with
    | none => none
    | some st => some (st.1, c.2 ++ l.2 ++ se.2 ++ st.2)

/-- One step of `<Service as Stream>::poll` (lines 817-862): early termination
check, the body, and the final termination check. The source never returns
`Err`: only `Ok(Async::Ready(None))` or `Ok(Async::NotReady)` are produced. -/
def Service.poll (s : Service) (denv : Multiaddr → DialResult)
    (lenv : Multiaddr → ListenResult) (sevs : List SessionEvent)
    (tasks : List ServiceTask) : Option (PollResult × Service × List Out) :=
  if s.terminated then some (PollResult.readyNone, s, [])
  else
    match s.poll_body denv lenv sevs tasks with
    | none => none
    | some st =>
      if st.1.terminated then some (PollResult.readyNone, st.1, st.2)
      else some (PollResult.notReady, st.1, st.2)

/-- Whether an output is the `init` callback of the service-level handler
for protocol p. -/
def isInitFor (p : ProtocolId) (o : Out) : Bool :=
  match o with
  | Out.service_init q => q = p
  | _ => false

/-- Number of `service_init p` callbacks in a trace: how many times the
service-level handler for protocol p was created and initialized. -/
def initCount (p : ProtocolId) (l : List Out) : Nat :=
  match l with
  | [] => 0
  | o :: rest => (if isInitFor p o then 1 else 0) + initCount p rest

/-- Occurrences of an address in the pending-dial list. -/
def dialCount (l : List Multiaddr) (a : Multiaddr) : Nat :=
  match l with
  | [] => 0
  | x :: rest => (if x = a then 1 else 0) + dialCount rest a

/-- A freshly constructed Service with no configs, sessions, listens or dials
(key_pair absent, run-forever off), used as a base for concrete scenarios. -/
def emptyService : Service :=
  { protocol_configs := [], sessions := [], listens := [], dial := [],
    task_count := 0, next_session := 0, has_key_pair := false,
    session_service_protos := [], service_proto_handles := [],
    session_proto_handles := [], notify_senders := [], listens_snapshot := [] }

/-- A resolvable concrete address. -/
def addrA : Multiaddr := { val := 1, resolvable := true }

/-- A concrete address that does not resolve to a TCP socket address. -/
def addrBad : Multiaddr := { val := 2, resolvable := false }

/-- Environment in which every pending connect is still pending. -/
def denvNotReady : Multiaddr → DialResult := fun _ => DialResult.notReady

/-- Environment in which every acceptor is still pending. -/
def lenvNotReady : Multiaddr → ListenResult := fun _ => ListenResult.notReady

/-- A protocol configuration whose both handler factories return a handler. -/
def metaP7 : ProtocolMeta :=
  { name := "p", id := 7, service_handle := true, session_handle := true }

/-- A live session context with id 1 and remote public key 5. -/
def ctx1 : SessionContext :=
  { id := 1, address := addrA, ty := SessionType.Server, remote_pubkey := some 5 }

/-- A state with one live session (id 1) whose session-level handler for
protocol 7 is installed. -/
def stateClose : Service :=
  { emptyService with sessions := [(1, ctx1)], session_proto_handles := [(1, [7])] }

/-- A state with one live session (id 1) and protocol 7 configured, next id 1. -/
def stateOpen : Service :=
  { emptyService with
    protocol_configs := [metaP7], sessions := [(1, ctx1)], next_session := 1 }

/-- The state reached from `stateOpen` after two `ProtocolOpen` events for
protocol 7 on session 1. -/
def stateOpenAfter : Service :=
  { emptyService with
    protocol_configs := [metaP7], sessions := [(1, ctx1)], next_session := 1,
    session_service_protos := [(1, [7])], service_proto_handles := [7],
    session_proto_handles := [(1, [7])] }

/-- The trace produced from `stateOpen` by two `ProtocolOpen` events for
protocol 7 on session 1: `init` fires only on the first. -/
def outsOpenTwice : List Out :=
  [Out.service_init 7, Out.service_connected 7 1 "0.1", Out.sess_connected 1 7 "0.1",
   Out.service_connected 7 1 "0.1", Out.sess_connected 1 7 "0.1"]

theorem mapLookup_insert_self {α : Type} (m : List (Nat × α)) (k : Nat) (v : α) :
    mapLookup (mapInsert m k v) k = some v := by
  induction m with
  | nil => simp [mapInsert, mapLookup]
  | cons q t ih =>
    obtain ⟨k1, v1⟩ := q
    by_cases hk : k1 = k
    · simp [mapInsert, hk, mapLookup]
    · simp [mapInsert, hk, mapLookup, ih]

theorem mapLookup_none_of_bounded {α : Type} (m : List (Nat × α)) (n : Nat)
    (h : ∀ q ∈ m, q.1 ≤ n) : mapLookup m (n + 1) = none := by
  induction m with
  | nil => rfl
  | cons q t ih =>
    obtain ⟨k1, v1⟩ := q
    have h1 : k1 ≤ n := h (k1, v1) (List.mem_cons_self _ _)
    have hne : k1 ≠ n + 1 := by omega
    simp only [mapLookup, hne, if_false]
    exact ih fun q hq => h q (List.mem_cons_of_mem _ hq)

theorem mapRemove_of_lookup_none {α : Type} (m : List (Nat × α)) (k : Nat)
    (h : mapLookup m k = none) : mapRemove m k = m := by
  induction m with
  | nil => rfl
  | cons q t ih =>
    obtain ⟨k1, v1⟩ := q
    by_cases hk : k1 = k
    · simp [mapLookup, hk] at h
    · simp only [mapLookup, hk, if_false] at h
      simp [mapRemove, hk, ih h]

theorem removeNotify_of_all_ne (l : List (Nat × Nat)) (sid pid : Nat)
    (h : ∀ q ∈ l, ¬(q.1 = sid ∧ q.2 = pid)) : removeNotify l sid pid = l := by
  induction l with
  | nil => rfl
  | cons q t ih =>
    have hq : ¬(q.1 = sid ∧ q.2 = pid) := h q (List.mem_cons_self _ _)
    simp only [removeNotify, hq, if_false]
    rw [ih fun q hq => h q (List.mem_cons_of_mem _ hq)]

/-- C1: `session_open` with a non-null remote public key either finds a live
session with the same key — and then emits a RepeatedConnection error carrying
that session's id (DialerError for an outbound/Client connection, ListenError
for an inbound/Server one) while leaving the whole state, in particular
`next_session` and the session registry, unchanged — or finds none, in which
case `next_session` grows by exactly one and a session context with the fresh
id is inserted; under the id-bound invariant the fresh id was not previously
in use, so no id is reused and none is allocated for a rejected duplicate. -/
theorem claim1_session_open_dedup (s : Service) (k : PublicKey) (addr : Multiaddr)
    (ty : SessionType) (hinv : ∀ q ∈ s.sessions, q.1 ≤ s.next_session) :
    (∀ ctx, findPk s.sessions k = some ctx →
      Service.session_open s (some k) addr ty =
        (s, [Out.shutdown_stream,
          Out.handle_error
            (if ty = SessionType.Client then
              ServiceError.DialerError addr (SvcErr.RepeatedConnection ctx.id)
            else
              ServiceError.ListenError addr (SvcErr.RepeatedConnection ctx.id))])) ∧
    (findPk s.sessions k = none →
      mapLookup s.sessions (s.next_session + 1) = none ∧
      (Service.session_open s (some k) addr ty).1 =
        { s with next_session := s.next_session + 1,
                 sessions := mapInsert s.sessions (s.next_session + 1)
                   { id := s.next_session + 1, address := addr, ty := ty,
                     remote_pubkey := some k } } ∧
      mapLookup (Service.session_open s (some k) addr ty).1.sessions
          (s.next_session + 1) =
        some { id := s.next_session + 1, address := addr, ty := ty,
               remote_pubkey := some k }) := by
  constructor
  · intro ctx hctx
    simp [Service.session_open, hctx]
  · intro hnone
    refine ⟨mapLookup_none_of_bounded s.sessions s.next_session hinv, ?_, ?_⟩
    · simp [Service.session_open, hnone, Service.session_open_new]
    · simp [Service.session_open, hnone, Service.session_open_new,
        mapLookup_insert_self]

/-- Witness for C1 at a concrete state: dedup check misses, id 1 is fresh and
gets inserted. -/
theorem claim1_witness :
    mapLookup emptyService.sessions (emptyService.next_session + 1) = none ∧
    (Service.session_open emptyService (some 5) addrA SessionType.Client).1 =
      { emptyService with
        next_session := emptyService.next_session + 1,
        sessions := mapInsert emptyService.sessions (emptyService.next_session + 1)
          { id := emptyService.next_session + 1, address := addrA,
            ty := SessionType.Client, remote_pubkey := some 5 } } ∧
    mapLookup (Service.session_open emptyService (some 5) addrA SessionType.Client).1.sessions
        (emptyService.next_session + 1) =
      some { id := emptyService.next_session + 1, address := addrA,
             ty := SessionType.Client, remote_pubkey := some 5 } :=
  (claim1_session_open_dedup emptyService 5 addrA SessionType.Client
    (by intro q hq; simp [emptyService] at hq)).2 (by decide)

/-- C8: `protocol_open` is total exactly on the states where the session
context lookup succeeds; when `sessions[session_id]` is missing the operation
is the `.expect` panic, modelled as `none`. -/
theorem claim8_protocol_open_totality (s : Service) (id : SessionId)
    (proto_id : ProtocolId) (version : String) :
    (Service.protocol_open s id proto_id version).isSome =
      (mapLookup s.sessions id).isSome := by
  cases h : mapLookup s.sessions id with
  | none => simp [Service.protocol_open, h]
  | some ctx => simp [Service.protocol_open, h]

/-- C3 counterexample: at `stateClose`, closing session 1 delivers
`SessionClose` to the ServiceHandle at position 1 of the trace, strictly
before the session-level `disconnected` callback at position 2 — not after
it as the claim states. -/
theorem claim3_counterexample :
    (Service.session_close stateClose 1).2 =
      [Out.try_send_session 1 (SessionEvent.SessionClose 1),
       Out.handle_event (ServiceEvent.SessionClose 1),
       Out.sess_disconnected 1 7] ∧
    (Service.session_close stateClose 1).2.indexOf
        (Out.handle_event (ServiceEvent.SessionClose 1)) <
      (Service.session_close stateClose 1).2.indexOf (Out.sess_disconnected 1 7) := by
  constructor
  · decide
  · decide

/-- C3 amended: in every `session_close` trace the `SessionClose` event is
delivered to the ServiceHandle *before* (not after) every session-level
`disconnected` callback: the trace splits as a prefix free of
`sess_disconnected` outputs, then the `SessionClose` delivery, then the rest. -/
theorem claim3_session_close_order (s : Service) (id : SessionId) :
    ∃ a b, (Service.session_close s id).2 =
        a ++ Out.handle_event (ServiceEvent.SessionClose id) :: b ∧
      ∀ o ∈ a, ∀ sid pid, o ≠ Out.sess_disconnected sid pid := by
  refine ⟨if (mapLookup s.sessions id).isSome then
      [Out.try_send_session id (SessionEvent.SessionClose id)] else [],
    (Service.session_close_rest s id).2, ?_, ?_⟩
  · show ((if (mapLookup s.sessions id).isSome then
        [Out.try_send_session id (SessionEvent.SessionClose id)] else []) ++
        [Out.handle_event (ServiceEvent.SessionClose id)]) ++
        (Service.session_close_rest s id).2 = _
    rw [List.append_assoc]
    rfl
  by_cases h : (mapLookup s.sessions id).isSome
  · simp only [h, if_true, List.mem_singleton]
    intro o ho sid pid
    subst ho
    intro hco
    exact Out.noConfusion hco
  · simp [h]

/-- C4 counterexample: dispatching `Disconnect{42}` on a state with no session
42 still invokes a ServiceHandle callback: the trace is
`[handle_event (SessionClose 42)]`, not empty as the claim requires. -/
theorem claim4_counterexample :
    Service.handle_service_task emptyService denvNotReady (ServiceTask.Disconnect 42) =
      some (emptyService, [Out.handle_event (ServiceEvent.SessionClose 42)]) ∧
    (Service.handle_service_task emptyService denvNotReady
        (ServiceTask.Disconnect 42)).map (fun r => r.2) ≠ some [] := by
  constructor
  · rfl
  · decide

/-- C4 amended: `Disconnect` on an unknown session id surfaces no error,
invokes no protocol-handler callback and leaves every registry unchanged, but
it does deliver one `SessionClose{id}` event to the ServiceHandle. -/
theorem claim4_disconnect_unknown (s : Service) (denv : Multiaddr → DialResult)
    (sid : SessionId)
    (h1 : mapLookup s.sessions sid = none)
    (h2 : mapLookup s.session_proto_handles sid = none)
    (h3 : mapLookup s.session_service_protos sid = none) :
    Service.handle_service_task s denv (ServiceTask.Disconnect sid) =
      some (s, [Out.handle_event (ServiceEvent.SessionClose sid)]) := by
  have hrest : Service.session_close_rest s sid = (s, []) := by
    simp only [Service.session_close_rest, h2, h3, Option.getD_none]
    rw [mapRemove_of_lookup_none _ _ h3]
    simp only [closeServiceProtos]
    rw [mapRemove_of_lookup_none _ _ h1]
    rfl
  simp [Service.handle_service_task, Service.session_close, hrest, h1]

/-- Witness for C4 amended at the empty state. -/
theorem claim4_witness :
    Service.handle_service_task emptyService denvNotReady (ServiceTask.Disconnect 7) =
      some (emptyService, [Out.handle_event (ServiceEvent.SessionClose 7)]) :=
  claim4_disconnect_unknown emptyService denvNotReady 7 rfl rfl rfl

/-- C6 counterexample: dispatching `Dial` with the unresolvable address
`addrBad` aborts (the `.expect("Address input error")` panic in `dial_inner`,
modelled as `none`) instead of rejecting and surfacing a later DialerError. -/
theorem claim6_counterexample :
    Service.handle_service_task emptyService denvNotReady (ServiceTask.Dial addrBad) =
      none ∧
    Service.dial_inner emptyService addrBad = none := by
  constructor
  · rfl
  · rfl

/-- C6 amended: `dial_inner` panics on every address that does not resolve to
a TCP socket address; for a resolvable address it enqueues the dial and bumps
`task_count`, and a subsequent failed poll of that dial surfaces a
`DialerError` through the ServiceHandle. -/
theorem claim6_dial_invalid_address (s : Service) (a : Multiaddr)
    (hbad : multiaddr_to_socketaddr a = none) :
    Service.dial_inner s a = none ∧
    (∀ sa, multiaddr_to_socketaddr a = some sa →
      Service.dial_inner s a =
        some { s with dial := s.dial ++ [a], task_count := s.task_count + 1 }) ∧
    Service.client_poll { s with dial := [a] } (fun _ => DialResult.failed DialErr.elapsed) =
      ({ s with dial := [], task_count := s.task_count - 1 },
       [Out.handle_error (ServiceError.DialerError a (SvcErr.Io IoKind.TimedOut))]) := by
  refine ⟨?_, ?_, ?_⟩
  · simp [Service.dial_inner, hbad]
  · intro sa hsa
    simp [Service.dial_inner, hsa]
  · simp [Service.client_poll, clientLoop]

/-- Witness for C6 amended at the concrete unresolvable address. -/
theorem claim6_witness :
    Service.dial_inner emptyService addrBad = none ∧
    (∀ sa, multiaddr_to_socketaddr addrBad = some sa →
      Service.dial_inner emptyService addrBad =
        some { emptyService with
               dial := emptyService.dial ++ [addrBad],
               task_count := emptyService.task_count + 1 }) ∧
    Service.client_poll { emptyService with dial := [addrBad] }
        (fun _ => DialResult.failed DialErr.elapsed) =
      ({ emptyService with dial := [], task_count := emptyService.task_count - 1 },
       [Out.handle_error (ServiceError.DialerError addrBad (SvcErr.Io IoKind.TimedOut))]) :=
  claim6_dial_invalid_address emptyService addrBad (by decide)

/-- C7 counterexample: an *Inbound* (Server) `HandshakeFail` produces no
ServiceHandle callback at all — in particular no `ListenError` — contradicting
the claim that the error is surfaced via `handle_error`. -/
theorem claim7_counterexample :
    Service.handle_session_event emptyService
        (SessionEvent.HandshakeFail SessionType.Server (SvcErr.Io (IoKind.Raw 0)) addrA) =
      some (emptyService, []) := by
  rfl

/-- C7 amended: an Outbound (Client) `HandshakeFail` decrements `task_count`
by exactly one and surfaces the error as a `DialerError` via
`handle_error`; an Inbound (Server) `HandshakeFail` leaves the state unchanged
and surfaces nothing — no `handle_error` call is made for it. -/
theorem claim7_handshake_fail (s : Service) (e : SvcErr) (a : Multiaddr)
    (htc : 0 < s.task_count) :
    Service.handle_session_event s (SessionEvent.HandshakeFail SessionType.Client e a) =
      some ({ s with task_count := s.task_count - 1 },
        [Out.handle_error (ServiceError.DialerError a e)]) ∧
    s.task_count - 1 + 1 = s.task_count ∧
    Service.handle_session_event s (SessionEvent.HandshakeFail SessionType.Server e a) =
      some (s, []) := by
  refine ⟨?_, ?_, ?_⟩
  · simp [Service.handle_session_event]
  · omega
  · simp [Service.handle_session_event]

/-- Witness for C7 amended at a concrete state with one in-flight dial. -/
theorem claim7_witness :
    Service.handle_session_event { emptyService with task_count := 1 }
        (SessionEvent.HandshakeFail SessionType.Client (SvcErr.Io IoKind.TimedOut) addrA) =
      some ({ { emptyService with task_count := 1 } with
              task_count := { emptyService with task_count := 1 }.task_count - 1 },
        [Out.handle_error (ServiceError.DialerError addrA (SvcErr.Io IoKind.TimedOut))]) ∧
    { emptyService with task_count := 1 }.task_count - 1 + 1 =
      { emptyService with task_count := 1 }.task_count ∧
    Service.handle_session_event { emptyService with task_count := 1 }
        (SessionEvent.HandshakeFail SessionType.Server (SvcErr.Io IoKind.TimedOut) addrA) =
      some ({ emptyService with task_count := 1 }, []) :=
  claim7_handshake_fail { emptyService with task_count := 1 }
    (SvcErr.Io IoKind.TimedOut) addrA (by decide)

theorem clientLoop_notReady (denv : Multiaddr → DialResult)
    (h : ∀ x, denv x = DialResult.notReady) :
    ∀ pending s, clientLoop denv pending s = ({ s with dial := s.dial ++ pending }, []) := by
  intro pending
  induction pending with
  | nil =>
    intro s
    rw [List.append_nil]
    rfl
  | cons a rest ih =>
    intro s
    simp only [clientLoop, h a]
    rw [ih]
    simp [List.append_assoc]

theorem client_poll_notReady (s : Service) (denv : Multiaddr → DialResult)
    (h : ∀ x, denv x = DialResult.notReady) :
    Service.client_poll s denv = (s, []) := by
  unfold Service.client_poll
  rw [clientLoop_notReady denv h]
  rfl

theorem dialContains_append_self (l : List Multiaddr) (a : Multiaddr) :
    dialContains (l ++ [a]) a = true := by
  induction l with
  | nil => simp [dialContains]
  | cons x t ih => by_cases hx : x = a <;> simp [dialContains, hx, ih]

theorem append_singleton_not_empty (l : List Multiaddr) (a : Multiaddr) :
    (l ++ [a]).isEmpty = false := by
  cases l <;> rfl

theorem dialCount_append (l : List Multiaddr) (a : Multiaddr) :
    dialCount (l ++ [a]) a = dialCount l a + 1 := by
  induction l with
  | nil => simp [dialCount]
  | cons x t ih =>
    by_cases hx : x = a <;> simp [dialCount, hx, ih]
    omega

theorem dialCount_zero_of_not_contains (l : List Multiaddr) (a : Multiaddr)
    (h : dialContains l a = false) : dialCount l a = 0 := by
  induction l with
  | nil => rfl
  | cons x t ih =>
    by_cases hx : x = a
    · simp [dialContains, hx] at h
    · simp only [dialContains, hx, if_false] at h
      simp [dialCount, hx, ih h]

/-- C5: dispatching `Dial{a}` on a state with no pending dial for `a` enqueues
exactly one pending dial and increments `task_count` once; dispatching
`Dial{a}` again while that dial is still pending (every poll reports NotReady)
neither enqueues a second dial nor touches `task_count`: after the two
dispatches exactly one pending dial for `a` exists. -/
theorem claim5_dial_idempotent (s : Service) (denv : Multiaddr → DialResult)
    (a : Multiaddr) (hres : a.resolvable = true)
    (hnew : dialContains s.dial a = false)
    (henv : ∀ x, denv x = DialResult.notReady) :
    Service.handle_service_task s denv (ServiceTask.Dial a) =
      some ({ s with dial := s.dial ++ [a], task_count := s.task_count + 1 }, []) ∧
    Service.handle_service_task
        { s with dial := s.dial ++ [a], task_count := s.task_count + 1 } denv
        (ServiceTask.Dial a) =
      some ({ s with dial := s.dial ++ [a], task_count := s.task_count + 1 }, []) ∧
    dialCount (s.dial ++ [a]) a = 1 ∧
    ({ s with dial := s.dial ++ [a], task_count := s.task_count + 1 }).task_count =
      s.task_count + 1 := by
  refine ⟨?_, ?_, ?_, rfl⟩
  · simp only [Service.handle_service_task, hnew, Bool.false_eq_true, if_false,
      Service.dial_inner, multiaddr_to_socketaddr, hres, if_true,
      append_singleton_not_empty]
    rw [client_poll_notReady _ denv henv]
  · simp only [Service.handle_service_task, dialContains_append_self, if_true,
      append_singleton_not_empty]
    rw [client_poll_notReady _ denv henv]
    rfl
  · rw [dialCount_append, dialCount_zero_of_not_contains s.dial a hnew]

/-- Witness for C5 at the empty state with the concrete resolvable address. -/
theorem claim5_witness :
    Service.handle_service_task emptyService denvNotReady (ServiceTask.Dial addrA) =
      some ({ emptyService with
              dial := emptyService.dial ++ [addrA],
              task_count := emptyService.task_count + 1 }, []) ∧
    Service.handle_service_task
        { emptyService with
          dial := emptyService.dial ++ [addrA],
          task_count := emptyService.task_count + 1 } denvNotReady
        (ServiceTask.Dial addrA) =
      some ({ emptyService with
              dial := emptyService.dial ++ [addrA],
              task_count := emptyService.task_count + 1 }, []) ∧
    dialCount (emptyService.dial ++ [addrA]) addrA = 1 ∧
    ({ emptyService with
       dial := emptyService.dial ++ [addrA],
       task_count := emptyService.task_count + 1 }).task_count =
      emptyService.task_count + 1 :=
  claim5_dial_idempotent emptyService denvNotReady addrA rfl rfl (fun _ => rfl)

/-- C10: `protocol_message`, `protocol_close` and the `ProtocolSessionNotify`
task dispatch are total on unknown keys: when the session id and protocol id
have no entry in `sessions`, `service_proto_handles`, `session_proto_handles`,
`session_service_protos`, and there are no notify senders registered for the
pair, each operation completes (no panic), produces no callback output, and
returns the state unchanged. -/
theorem claim10_unknown_keys (s : Service) (denv : Multiaddr → DialResult)
    (sid : SessionId) (pid : ProtocolId) (tok : Nat) (data : List Nat)
    (h1 : mapLookup s.sessions sid = none)
    (h2 : setMem s.service_proto_handles pid = false)
    (h3 : mapLookup s.session_proto_handles sid = none)
    (h4 : mapLookup s.session_service_protos sid = none)
    (h5 : ∀ q ∈ s.notify_senders, ¬(q.1 = sid ∧ q.2 = pid)) :
    Service.protocol_message s sid pid data = (s, []) ∧
    Service.protocol_close s sid pid = (s, []) ∧
    Service.handle_service_task s denv (ServiceTask.ProtocolSessionNotify sid pid tok) =
      some (s, []) := by
  refine ⟨?_, ?_, ?_⟩
  · simp [Service.protocol_message, h1, h3]
  · simp only [Service.protocol_close, h1, h3, h4, Option.isSome_none,
      Bool.and_false, Bool.false_eq_true, if_false]
    rw [removeNotify_of_all_ne _ _ _ h5]
    rfl
  · simp [Service.handle_service_task, h3]

/-- Witness for C10 at the empty state. -/
theorem claim10_witness :
    Service.protocol_message emptyService 3 4 [9] = (emptyService, []) ∧
    Service.protocol_close emptyService 3 4 = (emptyService, []) ∧
    Service.handle_service_task emptyService denvNotReady
        (ServiceTask.ProtocolSessionNotify 3 4 0) = some (emptyService, []) :=
  claim10_unknown_keys emptyService denvNotReady 3 4 0 [9] rfl rfl rfl rfl
    (by intro q hq; simp [emptyService] at hq)

/-- C2: whenever one step of `Stream::poll` completes (no event-processing
panic), it yields `Ready(None)` exactly when the termination predicate
`listens = ∅ ∧ task_count = 0 ∧ sessions = ∅` holds at entry or after the body
(dial pass, listen pass, and the full drain of both inboxes); in every other
case it yields `NotReady`, and it never yields an error. -/
theorem claim2_poll_termination (s : Service) (denv : Multiaddr → DialResult)
    (lenv : Multiaddr → ListenResult) (sevs : List SessionEvent)
    (tasks : List ServiceTask) (r : PollResult) (s2 : Service) (outs : List Out)
    (h : Service.poll s denv lenv sevs tasks = some (r, s2, outs)) :
    (r = PollResult.readyNone ↔ (s.terminated = true ∨ s2.terminated = true)) ∧
    r ≠ PollResult.error := by
  unfold Service.poll at h
  by_cases ht : s.terminated = true
  · rw [if_pos ht] at h
    simp only [Option.some.injEq, Prod.mk.injEq] at h
    obtain ⟨hr, hs, ho⟩ := h
    subst hr
    subst hs
    exact ⟨⟨fun _ => Or.inl ht, fun _ => rfl⟩, fun hc => PollResult.noConfusion hc⟩
  · rw [if_neg ht] at h
    cases hb : Service.poll_body s denv lenv sevs tasks with
    | none =>
      rw [hb] at h
      exact Option.noConfusion h
    | some st =>
      rw [hb] at h
      have h := show (if st.1.terminated = true then
          some (PollResult.readyNone, st.1, st.2)
        else some (PollResult.notReady, st.1, st.2)) = some (r, s2, outs) from h
      by_cases ht2 : st.1.terminated = true
      · rw [if_pos ht2] at h
        simp only [Option.some.injEq, Prod.mk.injEq] at h
        obtain ⟨hr, hs, ho⟩ := h
        subst hr
        subst hs
        exact ⟨⟨fun _ => Or.inr ht2, fun _ => rfl⟩, fun hc => PollResult.noConfusion hc⟩
      · rw [if_neg ht2] at h
        simp only [Option.some.injEq, Prod.mk.injEq] at h
        obtain ⟨hr, hs, ho⟩ := h
        subst hr
        subst hs
        refine ⟨⟨fun hc => PollResult.noConfusion hc, fun hor => ?_⟩,
          fun hc => PollResult.noConfusion hc⟩
        cases hor with
        | inl hl => exact absurd hl ht
        | inr hr2 => exact absurd hr2 ht2

/-- Witness for C2 at the already-terminated empty state. -/
theorem claim2_witness :
    (PollResult.readyNone = PollResult.readyNone ↔
      (emptyService.terminated = true ∨ emptyService.terminated = true)) ∧
    PollResult.readyNone ≠ PollResult.error :=
  claim2_poll_termination emptyService denvNotReady lenvNotReady [] []
    PollResult.readyNone emptyService [] rfl

theorem initCount_append (p : ProtocolId) (l1 l2 : List Out) :
    initCount p (l1 ++ l2) = initCount p l1 + initCount p l2 := by
  induction l1 with
  | nil => simp [initCount]
  | cons o t ih => simp [initCount, ih]; omega

theorem initCount_open_streams (p : ProtocolId) (l : List ProtocolMeta) :
    initCount p (l.map (fun m => Out.open_proto_stream m.name)) = 0 := by
  induction l with
  | nil => rfl
  | cons m t ih => simp [initCount, isInitFor, ih]

theorem initCount_sess_disconnected (p : ProtocolId) (id : SessionId) (l : List Nat) :
    initCount p (l.map (fun pid => Out.sess_disconnected id pid)) = 0 := by
  induction l with
  | nil => rfl
  | cons x t ih => simp [initCount, isInitFor, ih]

theorem setMem_append (l : List Nat) (x p : Nat) :
    setMem (l ++ [x]) p = (setMem l p || decide (x = p)) := by
  induction l with
  | nil => by_cases h : x = p <;> simp [setMem, h]
  | cons y t ih => by_cases h : y = p <;> simp [setMem, h, ih]

theorem session_open_no_init (s : Service) (rk : Option PublicKey) (a : Multiaddr)
    (ty : SessionType) (p : ProtocolId) :
    (Service.session_open s rk a ty).1.service_proto_handles = s.service_proto_handles ∧
    initCount p (Service.session_open s rk a ty).2 = 0 := by
  have hnew : ∀ rk2,
      (Service.session_open_new s rk2 a ty).1.service_proto_handles =
        s.service_proto_handles ∧
      initCount p (Service.session_open_new s rk2 a ty).2 = 0 := by
    intro rk2
    constructor
    · rfl
    · show initCount p ((if ty = SessionType.Client then _ else []) ++ _) = 0
      rw [initCount_append]
      by_cases hty : ty = SessionType.Client <;>
        simp [hty, initCount_open_streams, initCount, isInitFor]
  cases rk with
  | none => exact hnew none
  | some key =>
    cases hf : findPk s.sessions key with
    | none =>
      simp only [Service.session_open, hf]
      exact hnew (some key)
    | some ctx =>
      simp [Service.session_open, hf, initCount, isInitFor]

theorem closeServiceProtos_no_init (id : SessionId) (p : ProtocolId) :
    ∀ pids s, (closeServiceProtos s id pids).1.service_proto_handles =
        s.service_proto_handles ∧
      initCount p (closeServiceProtos s id pids).2 = 0 := by
  intro pids
  induction pids with
  | nil => intro s; exact ⟨rfl, rfl⟩
  | cons pid rest ih =>
    intro s
    have h1 := (ih { s with notify_senders := removeNotify s.notify_senders id pid }).1
    have h2 := (ih { s with notify_senders := removeNotify s.notify_senders id pid }).2
    constructor
    · exact h1
    · simp only [closeServiceProtos]
      rw [initCount_append]
      split <;> simp [initCount, isInitFor, h2]

theorem session_close_no_init (s : Service) (id : SessionId) (p : ProtocolId) :
    (Service.session_close s id).1.service_proto_handles = s.service_proto_handles ∧
    initCount p (Service.session_close s id).2 = 0 := by
  have hrest :
      (Service.session_close_rest s id).1.service_proto_handles =
        s.service_proto_handles ∧
      initCount p (Service.session_close_rest s id).2 = 0 := by
    cases hl : mapLookup s.session_proto_handles id with
    | none =>
      constructor
      · show ({ (closeServiceProtos _ id _).1 with
            sessions := mapRemove (closeServiceProtos _ id _).1.sessions id
          }).service_proto_handles = s.service_proto_handles
        simp only [Service.session_close_rest, hl]
        exact (closeServiceProtos_no_init id p _ _).1
      · simp only [Service.session_close_rest, hl]
        rw [initCount_append]
        simp [initCount, (closeServiceProtos_no_init id p _ _).2]
    | some handles =>
      constructor
      · simp only [Service.session_close_rest, hl]
        exact (closeServiceProtos_no_init id p _ _).1
      · simp only [Service.session_close_rest, hl]
        rw [initCount_append]
        simp [initCount_sess_disconnected, (closeServiceProtos_no_init id p _ _).2]
  constructor
  · exact hrest.1
  · simp only [Service.session_close]
    rw [initCount_append, initCount_append]
    split <;> simp [initCount, isInitFor, hrest.2]

theorem protocol_close_no_init (s : Service) (sid : SessionId) (pid : ProtocolId)
    (p : ProtocolId) :
    (Service.protocol_close s sid pid).1.service_proto_handles =
      s.service_proto_handles ∧
    initCount p (Service.protocol_close s sid pid).2 = 0 := by
  constructor
  · simp only [Service.protocol_close]
    cases hl : mapLookup s.session_proto_handles sid with
    | none => split <;> rfl
    | some handles =>
      by_cases hm : setMem handles pid = true <;> simp only [hl, hm] <;> split <;> rfl
  · simp only [Service.protocol_close]
    rw [initCount_append]
    cases hl : mapLookup s.session_proto_handles sid with
    | none => split <;> simp [initCount, isInitFor]
    | some handles =>
      by_cases hm : setMem handles pid = true <;> simp only [hl, hm] <;>
        split <;> simp [initCount, isInitFor]

theorem protocol_message_no_init (s : Service) (sid : SessionId) (pid : ProtocolId)
    (data : List Nat) (p : ProtocolId) :
    (Service.protocol_message s sid pid data).1 = s ∧
    initCount p (Service.protocol_message s sid pid data).2 = 0 := by
  constructor
  · rfl
  · simp only [Service.protocol_message]
    rw [initCount_append]
    cases hl : mapLookup s.session_proto_handles sid with
    | none => split <;> simp [initCount, isInitFor]
    | some handles =>
      by_cases hm : setMem handles pid = true <;> simp only [hl, hm] <;>
        split <;> simp [initCount, isInitFor]

theorem protocol_open_inner_init (s : Service) (id : SessionId) (pid : ProtocolId)
    (v : String) (p : ProtocolId) :
    initCount p (Service.protocol_open_inner s id pid v).2 +
      (if setMem s.service_proto_handles p then 1 else 0) ≤
    (if setMem (Service.protocol_open_inner s id pid v).1.service_proto_handles p
      then 1 else 0) := by
  by_cases hses : proto_handle_exists s.protocol_configs true pid = true <;>
    by_cases hmem : setMem s.service_proto_handles pid = true <;>
      by_cases hfac : proto_handle_exists s.protocol_configs false pid = true <;>
        by_cases hp : pid = p <;>
          simp_all [Service.protocol_open_inner, setMem_append, initCount, isInitFor]

theorem handle_session_event_init (s : Service) (e : SessionEvent) (s2 : Service)
    (o : List Out) (p : ProtocolId)
    (h : Service.handle_session_event s e = some (s2, o)) :
    initCount p o + (if setMem s.service_proto_handles p then 1 else 0) ≤
      (if setMem s2.service_proto_handles p then 1 else 0) := by
  cases e with
  | SessionClose id =>
    simp only [Service.handle_session_event, Option.some.injEq] at h
    have hs : (Service.session_close s id).1 = s2 := by rw [h]
    have ho : (Service.session_close s id).2 = o := by rw [h]
    have hc := session_close_no_init s id p
    rw [← hs, ← ho, hc.1, hc.2]
    simp
  | HandshakeSuccess pk addr ty =>
    have hc := session_open_no_init s (some pk) addr ty p
    cases ty with
    | Client =>
      simp only [Service.handle_session_event, if_true] at h
      simp only [Option.some.injEq, Prod.mk.injEq] at h
      obtain ⟨hs, ho⟩ := h
      subst hs
      subst ho
      simp [hc.1, hc.2]
    | Server =>
      simp only [Service.handle_session_event] at h
      rw [if_neg (by intro hco; exact SessionType.noConfusion hco)] at h
      simp only [Option.some.injEq] at h
      have hs : (Service.session_open s (some pk) addr SessionType.Server).1 = s2 := by
        rw [h]
      have ho : (Service.session_open s (some pk) addr SessionType.Server).2 = o := by
        rw [h]
      rw [← hs, ← ho, hc.1, hc.2]
      simp
  | HandshakeFail ty err addr =>
    cases ty with
    | Client =>
      simp only [Service.handle_session_event, if_true] at h
      simp only [Option.some.injEq, Prod.mk.injEq] at h
      obtain ⟨hs, ho⟩ := h
      subst hs
      subst ho
      simp [initCount, isInitFor]
    | Server =>
      simp only [Service.handle_session_event] at h
      rw [if_neg (by intro hco; exact SessionType.noConfusion hco)] at h
      simp only [Option.some.injEq, Prod.mk.injEq] at h
      obtain ⟨hs, ho⟩ := h
      subst hs
      subst ho
      simp [initCount]
  | ProtocolMessage id pid data =>
    simp only [Service.handle_session_event, Option.some.injEq] at h
    have hs : (Service.protocol_message s id pid data).1 = s2 := by rw [h]
    have ho : (Service.protocol_message s id pid data).2 = o := by rw [h]
    have hc := protocol_message_no_init s id pid data p
    rw [← hs, ← ho, hc.1, hc.2]
    simp
  | ProtocolOpen id pid ver =>
    simp only [Service.handle_session_event] at h
    cases hctx : mapLookup s.sessions id with
    | none => simp [Service.protocol_open, hctx] at h
    | some ctx =>
      simp only [Service.protocol_open, hctx, Option.some.injEq] at h
      have hs : (Service.protocol_open_inner s id pid ver).1 = s2 := by rw [h]
      have ho : (Service.protocol_open_inner s id pid ver).2 = o := by rw [h]
      rw [← hs, ← ho]
      exact protocol_open_inner_init s id pid ver p
  | ProtocolClose id pid =>
    simp only [Service.handle_session_event, Option.some.injEq] at h
    have hs : (Service.protocol_close s id pid).1 = s2 := by rw [h]
    have ho : (Service.protocol_close s id pid).2 = o := by rw [h]
    have hc := protocol_close_no_init s id pid p
    rw [← hs, ← ho, hc.1, hc.2]
    simp

theorem handle_session_events_init (p : ProtocolId) :
    ∀ evs s s2 o, Service.handle_session_events s evs = some (s2, o) →
      initCount p o + (if setMem s.service_proto_handles p then 1 else 0) ≤
        (if setMem s2.service_proto_handles p then 1 else 0) := by
  intro evs
  induction evs with
  | nil =>
    intro s s2 o h
    simp only [Service.handle_session_events, Option.some.injEq, Prod.mk.injEq] at h
    obtain ⟨hs, ho⟩ := h
    subst hs
    subst ho
    simp [initCount]
  | cons e rest ih =>
    intro s s2 o h
    simp only [Service.handle_session_events] at h
    cases h1 : Service.handle_session_event s e with
    | none =>
      rw [h1] at h
      exact Option.noConfusion h
    | some step =>
      rw [h1] at h
      have h := show (match Service.handle_session_events step.1 rest with
        | none => none
        | some tail => some (tail.1, step.2 ++ tail.2)) = some (s2, o) from h
      cases h2 : Service.handle_session_events step.1 rest with
      | none =>
        rw [h2] at h
        exact Option.noConfusion h
      | some tail =>
        rw [h2] at h
        have h := show some (tail.1, step.2 ++ tail.2) = some (s2, o) from h
        simp only [Option.some.injEq, Prod.mk.injEq] at h
        obtain ⟨hs, ho⟩ := h
        subst hs
        subst ho
        have e1 := handle_session_event_init s e step.1 step.2 p (by rw [h1])
        have e2 := ih step.1 tail.1 tail.2 (by rw [h2])
        rw [initCount_append]
        omega

/-- C9: across any completed run of session events from any starting state,
the service-level handler for protocol p is created and initialized at most
once: the trace contains at most one `service_init p` — and none at all when
the handler already exists, in which case it also survives the whole run —
and neither `session_close` nor `protocol_close` ever removes an entry from
`service_proto_handles`. -/
theorem claim9_service_init_once (p : ProtocolId) (s s2 : Service)
    (evs : List SessionEvent) (o : List Out) (id sid : SessionId) (pid : ProtocolId)
    (h : Service.handle_session_events s evs = some (s2, o)) :
    initCount p o + (if setMem s.service_proto_handles p then 1 else 0) ≤ 1 ∧
    (setMem s.service_proto_handles p = true →
      setMem s2.service_proto_handles p = true ∧ initCount p o = 0) ∧
    (Service.session_close s id).1.service_proto_handles = s.service_proto_handles ∧
    (Service.protocol_close s sid pid).1.service_proto_handles =
      s.service_proto_handles := by
  have key := handle_session_events_init p evs s s2 o h
  have hb : (if setMem s2.service_proto_handles p then 1 else 0) ≤ 1 := by
    split <;> omega
  refine ⟨le_trans key hb, ?_, (session_close_no_init s id p).1,
    (protocol_close_no_init s sid pid p).1⟩
  intro hin
  rw [hin] at key
  simp at key
  by_cases h2 : setMem s2.service_proto_handles p = true
  · refine ⟨h2, ?_⟩
    rw [h2] at key
    simp at key
    omega
  · exfalso
    rw [if_neg h2] at key
    omega

/-- Witness for C9: running two `ProtocolOpen` events for protocol 7 from
`stateOpen` (handler initially absent) performs exactly one init. -/
theorem claim9_witness :
    initCount 7 outsOpenTwice +
      (if setMem stateOpen.service_proto_handles 7 then 1 else 0) ≤ 1 ∧
    (setMem stateOpen.service_proto_handles 7 = true →
      setMem stateOpenAfter.service_proto_handles 7 = true ∧
      initCount 7 outsOpenTwice = 0) ∧
    (Service.session_close stateOpen 1).1.service_proto_handles =
      stateOpen.service_proto_handles ∧
    (Service.protocol_close stateOpen 1 7).1.service_proto_handles =
      stateOpen.service_proto_handles :=
  claim9_service_init_once 7 stateOpen stateOpenAfter
    [SessionEvent.ProtocolOpen 1 7 "0.1", SessionEvent.ProtocolOpen 1 7 "0.1"]
    outsOpenTwice 1 1 7 (by decide)
